import Mathlib

/-!
Verification of the `vu` device layer (windows backend and shared
configuration code) against its natural-language specification.

The development shallowly embeds the C sources:
  * `device/os_windows.c`  — window procedure `gs_wnd_proc`, window creation
    `gs_create_window`, the WGL bootstrap `gs_context`, the event/render loop
    `dev_run`, the fullscreen toggle `dev_toggle_fullscreen`, and the cursor
    helpers `dev_cursor` / `dev_set_cursor_location`;
  * `src/vu/device/os_linux.c` — the configuration setters `gs_set_attr_l`
    and `gs_set_attr_s` over the `AppDefaults` record.

Host (Win32/WGL) behaviour is modelled by explicit environment records whose
fields give the outcome of each host call; machine integers are modelled as
`Nat`/`Int` with explicit 32-bit reductions where the C code truncates.
-/

namespace Vu

/-! ## Windows message and parameter constants (from windows.h / os_windows.c) -/

def WM_ACTIVATE : Nat := 0x0006
def WM_SYSCOMMAND : Nat := 0x0112
def WM_CLOSE : Nat := 0x0010
def WM_QUIT : Nat := 0x0012
def WM_KEYDOWN : Nat := 0x0100
def WM_KEYUP : Nat := 0x0101
def WM_SYSKEYDOWN : Nat := 0x0104
def WM_SYSKEYUP : Nat := 0x0105
def WM_LBUTTONDOWN : Nat := 0x0201
def WM_LBUTTONUP : Nat := 0x0202
def WM_MBUTTONDOWN : Nat := 0x0207
def WM_MBUTTONUP : Nat := 0x0208
def WM_RBUTTONDOWN : Nat := 0x0204
def WM_RBUTTONUP : Nat := 0x0205
def WM_MOUSEWHEEL : Nat := 0x020A
def WM_SIZE : Nat := 0x0005
def WM_SIZING : Nat := 0x0214
def WM_EXITSIZEMOVE : Nat := 0x0232

def WA_INACTIVE : Nat := 0
def SC_KEYMENU : Nat := 0xF100
def SC_RESTORE : Nat := 0xF120
def SC_MAXIMIZE : Nat := 0xF030
def SIZE_RESTORED : Nat := 0
def SIZE_MINIMIZED : Nat := 1
def SIZE_MAXIMIZED : Nat := 2
def WHEEL_DELTA : Int := 120

/-- Device-layer event codes (`devUp` .. `devMouseR`, os_darwin_amd64.h),
the values used by `os_windows.c` when calling back into `handleInput`. -/
def devUp : Int := 1
def devDown : Int := 2
def devScroll : Int := 3
def devMod : Int := 4
def devResize : Int := 5
def devFocusIn : Int := 6
def devFocusOut : Int := 7
def devMouseL : Int := 0xA0
def devMouseM : Int := 0xA1
def devMouseR : Int := 0xA2

/-! ## C integer helpers -/

/-- Interpret the low 32 bits of a `Nat` as a signed 32-bit value
(the C cast `(int)wParam`). -/
def toInt32 (w : Nat) : Int :=
  let m : Nat := w % 2 ^ 32
  if m < 2 ^ 31 then (m : Int) else (m : Int) - 2 ^ 32

/-- Arithmetic shift right by 16 on a signed value (gcc `>> 16` on `int`),
which rounds toward negative infinity. -/
def asr16 (x : Int) : Int := Int.fdiv x (2 ^ 16)

/-- C `/` on signed ints: division truncating toward zero. -/
def cdiv (a b : Int) : Int := (Int.sign a * Int.sign b) * (a.natAbs / b.natAbs : Nat)

/-! ## `gs_wnd_proc` (os_windows.c lines 37-147)

The window procedure is modelled as a pure function from the message triple
to its observable effects: the list of `handleInput(event, data)` callbacks it
issues, the assignment to `dev_win_alive` (if any), whether it posts a quit
message, mouse-capture acquisition/release, and whether the message is routed
to `DefWindowProc`.  The C `switch` is transcribed as a first-match chain. -/

structure ProcOut where
  calls : List (Int × Int)
  aliveSet : Option Int
  postQuit : Bool
  setCapture : Bool
  releaseCapture : Bool
  toDefWindowProc : Bool
deriving DecidableEq, Repr

def ProcOut.none0 : ProcOut :=
  ⟨[], Option.none, false, false, false, false⟩

/-- `case WM_ACTIVATE`: `LOWORD(wParam) != WA_INACTIVE` reports focus in,
otherwise focus out. -/
def procActivate (wParam : Nat) : ProcOut :=
  if wParam % 2 ^ 16 ≠ WA_INACTIVE then
    { ProcOut.none0 with calls := [(devFocusIn, 0)] }
  else
    { ProcOut.none0 with calls := [(devFocusOut, 0)] }

/-- `case WM_SYSCOMMAND`: `SC_KEYMENU` is swallowed; everything else breaks
out of the switch to `DefWindowProc`. -/
def procSysCommand (wParam : Nat) : ProcOut :=
  if wParam &&& 0xfff0 = SC_KEYMENU then
    ProcOut.none0
  else
    { ProcOut.none0 with toDefWindowProc := true }

/-- `case WM_CLOSE`: `dev_win_alive = -2; PostQuitMessage(0);`. -/
def procClose : ProcOut :=
  { ProcOut.none0 with aliveSet := some (-2), postQuit := true }

/-- The shared `WM_KEYDOWN`/`WM_KEYUP`/`WM_SYSKEYDOWN`/`WM_SYSKEYUP` body:
`long key = wParam`, `devUp` on the two up messages, `devDown` on the two
down messages, and only the SYS variants continue to `DefWindowProc`. -/
def procKey (msg wParam : Nat) : ProcOut :=
  let key : Int := (wParam : Int)
  let upCalls : List (Int × Int) :=
    if msg = WM_SYSKEYUP ∨ msg = WM_KEYUP then [(devUp, key)] else []
  let downCalls : List (Int × Int) :=
    if msg = WM_SYSKEYDOWN ∨ msg = WM_KEYDOWN then [(devDown, key)] else []
  { ProcOut.none0 with
      calls := upCalls ++ downCalls,
      toDefWindowProc := msg = WM_SYSKEYDOWN ∨ msg = WM_SYSKEYUP }

/-- The `WM_?BUTTONDOWN` cases: `SetCapture` then a `devDown` callback. -/
def procButtonDown (button : Int) : ProcOut :=
  { ProcOut.none0 with calls := [(devDown, button)], setCapture := true }

/-- The `WM_?BUTTONUP` cases: a `devUp` callback then `ReleaseCapture`. -/
def procButtonUp (button : Int) : ProcOut :=
  { ProcOut.none0 with calls := [(devUp, button)], releaseCapture := true }

/-- `case WM_MOUSEWHEEL`: `-1 * (((int)wParam) >> 16) / WHEEL_DELTA`,
flipping the scroll direction to match OSX. -/
def procWheel (wParam : Nat) : ProcOut :=
  let scroll : Int := cdiv (-1 * asr16 (toInt32 wParam)) WHEEL_DELTA
  { ProcOut.none0 with calls := [(devScroll, scroll)] }

/-- `case WM_SIZE`: a resize callback only for `SIZE_MAXIMIZED` and
`SIZE_RESTORED`. -/
def procSize (wParam : Nat) : ProcOut :=
  if wParam = SIZE_MAXIMIZED ∨ wParam = SIZE_RESTORED then
    { ProcOut.none0 with calls := [(devResize, 0)] }
  else
    ProcOut.none0

/-- `case WM_EXITSIZEMOVE`: always a resize callback. -/
def procExitSizeMove : ProcOut :=
  { ProcOut.none0 with calls := [(devResize, 0)] }

/-- Unhandled messages go to `DefWindowProc`. -/
def procDefault : ProcOut :=
  { ProcOut.none0 with toDefWindowProc := true }

def gs_wnd_proc (msg : Nat) (wParam : Nat) (_lParam : Int) : ProcOut :=
  if msg = WM_ACTIVATE then procActivate wParam
  else if msg = WM_SYSCOMMAND then procSysCommand wParam
  else if msg = WM_CLOSE then procClose
  else if msg = WM_KEYDOWN ∨ msg = WM_KEYUP ∨
          msg = WM_SYSKEYDOWN ∨ msg = WM_SYSKEYUP then procKey msg wParam
  else if msg = WM_LBUTTONDOWN then procButtonDown devMouseL
  else if msg = WM_LBUTTONUP then procButtonUp devMouseL
  else if msg = WM_MBUTTONDOWN then procButtonDown devMouseM
  else if msg = WM_MBUTTONUP then procButtonUp devMouseM
  else if msg = WM_RBUTTONDOWN then procButtonDown devMouseR
  else if msg = WM_RBUTTONUP then procButtonUp devMouseR
  else if msg = WM_MOUSEWHEEL then procWheel wParam
  else if msg = WM_SIZE then procSize wParam
  else if msg = WM_EXITSIZEMOVE then procExitSizeMove
  else procDefault

/-! ## Normalized events and the bounded event queue

The queue and the `handleInput` normalizer live in the Go half of the
repository, which is not under `src/` (only its C callers and the `extern`
declarations are).  They are therefore modelled from the specification. -/

/-- A queued normalized event: the device event code and its data
(key / button code, or scroll amount). -/
structure NEvent where
  event : Int
  data : Int
deriving DecidableEq, Repr

/-- Modelled from the spec: the Event Queue capacity — "bounded circular
buffer of NormalizedEvent, fixed small capacity (empirically 5)". -/
def qcap : Nat := 5

/-- Modelled from the spec: the Event Queue — "bounded circular buffer of
NormalizedEvent ... `front`/`rear` indices advance modulo capacity".  The
`rear` index is recovered as `(front + size) % qcap`; `slots` always has
length `qcap`. -/
structure EventQueue (α : Type) where
  slots : List (Option α)
  front : Nat
  size : Nat
deriving DecidableEq, Repr

def EventQueue.empty {α : Type} : EventQueue α :=
  ⟨List.replicate qcap Option.none, 0, 0⟩

/-- Modelled from the spec: the producer side — "`rear` is only ever advanced
by the host notification handler"; on overflow "the oldest unread event is
silently overwritten; no error is raised". -/
def EventQueue.push {α : Type} (q : EventQueue α) (e : α) : EventQueue α :=
  let rear := (q.front + q.size) % qcap
  if q.size = qcap then
    -- full: the slot at rear coincides with the oldest unread slot;
    -- overwrite it and advance front past the dropped event.
    ⟨q.slots.set rear (some e), (q.front + 1) % qcap, qcap⟩
  else
    ⟨q.slots.set rear (some e), q.front, q.size + 1⟩

/-- Modelled from the spec: the consumer side — "`front` only [advanced] by
poll"; returns the oldest queued normalized event if any, else none. -/
def EventQueue.poll {α : Type} (q : EventQueue α) : Option α × EventQueue α :=
  if q.size = 0 then (Option.none, q)
  else (((q.slots.get? q.front).getD Option.none),
        ⟨q.slots, (q.front + 1) % qcap, q.size - 1⟩)

/-- Poll `n` times, collecting the events returned. -/
def EventQueue.drainN {α : Type} (q : EventQueue α) : Nat → List α
  | 0 => []
  | n + 1 =>
    match q.poll with
    | (Option.none, _) => []
    | (some e, q2) => e :: q2.drainN n

/-- Drain every retrievable event. -/
def EventQueue.drain {α : Type} (q : EventQueue α) : List α :=
  q.drainN q.size

/-! ## The `handleInput` normalizer (modelled from the spec)

`os_windows.c` reports raw input by calling the Go callback
`handleInput(long event, long data)` (declared `extern` at os_windows.c
line 21).  Its implementation is not under `src/`. -/

/-- Modifier bitmask values (os_windows.h `GS_ShiftKeyMask` ...). -/
def GS_ShiftKeyMask : Nat := 1 <<< 17
def GS_ControlKeyMask : Nat := 1 <<< 18
def GS_CommandKeyMask : Nat := 1 <<< 19
def GS_FunctionKeyMask : Nat := 1 <<< 20
def GS_AlternateKeyMask : Nat := 1 <<< 21

/-- Windows virtual-key codes of the four pure-modifier keys. -/
def VK_SHIFT : Int := 0x10
def VK_CONTROL : Int := 0x11
def VK_MENU : Int := 0x12
def VK_LWIN : Int := 0x5B

/-- Modelled from the spec: the modifier-mask contribution of a key — the
"four pure-modifier keys (shift/control/alt/meta)" map to their mask bits;
every other key contributes nothing. -/
def modKeyBit (k : Int) : Nat :=
  if k = VK_SHIFT then GS_ShiftKeyMask
  else if k = VK_CONTROL then GS_ControlKeyMask
  else if k = VK_MENU then GS_AlternateKeyMask
  else if k = VK_LWIN then GS_CommandKeyMask
  else 0

/-- Bitwise `m AND NOT b`, the C expression `m & ~b` on the 32-bit style
words (all style values are below `2 ^ 32`, where the two agree). -/
def clearMask (m b : Nat) : Nat := Nat.ldiff m b

/-- State of the normalization layer: the modifier bitmask and the queue of
normalized events awaiting the poll of the consumer. -/
structure NormState where
  mask : Nat
  queue : EventQueue NEvent
deriving DecidableEq, Repr

def NormState.empty : NormState := ⟨0, EventQueue.empty⟩

/-- Modelled from the spec: `handleInput` — "Key translation passes through
the raw key code of the host unchanged (no remapping) except that the four
pure-modifier keys (shift/control/alt/meta) are suppressed as standalone key
events but still contribute to the modifier mask."  Non-key events are queued
unchanged. -/
def handleInput (st : NormState) (event data : Int) : NormState :=
  if event = devDown then
    if modKeyBit data ≠ 0 then
      { st with mask := st.mask ||| modKeyBit data }
    else
      { st with queue := st.queue.push ⟨devDown, data⟩ }
  else if event = devUp then
    if modKeyBit data ≠ 0 then
      { st with mask := clearMask st.mask (modKeyBit data) }
    else
      { st with queue := st.queue.push ⟨devUp, data⟩ }
  else
    { st with queue := st.queue.push ⟨event, data⟩ }

/-- One raw host notification through the full normalization pipeline:
`gs_wnd_proc` dispatches the message and each resulting `handleInput`
callback updates the normalizer state in order. -/
def processMsg (st : NormState) (msg wParam : Nat) (lParam : Int) : NormState :=
  ((gs_wnd_proc msg wParam lParam).calls).foldl
    (fun s c => handleInput s c.1 c.2) st

/-! ## Configuration defaults and setters (src/vu/device/os_linux.c 12-135) -/

/-- The `AppDefaults` record (os_linux.c lines 12-20). -/
structure AppDefaults where
  gs_ShellX : Int
  gs_ShellY : Int
  gs_ShellWidth : Int
  gs_ShellHeight : Int
  gs_AlphaSize : Int
  gs_DepthSize : Int
  gs_AppName : String
deriving DecidableEq, Repr

/-- `struct AppDefaults defaults = { 100, 100, 240, 280, 8, 24, "App" };` -/
def defaults0 : AppDefaults := ⟨100, 100, 240, 280, 8, 24, "App"⟩

/-- `enum AppAttributes` (os_linux.h): tag values in declaration order. -/
def GS_AppName : Nat := 0
def GS_ShellX : Nat := 1
def GS_ShellY : Nat := 2
def GS_ShellWidth : Nat := 3
def GS_ShellHeight : Nat := 4
def GS_AlphaSize : Nat := 5
def GS_DepthSize : Nat := 6

/-- `gs_set_attr_l` (os_linux.c lines 100-122). -/
def gs_set_attr_l (attr : Nat) (value : Int) (d : AppDefaults) : AppDefaults :=
  if attr = GS_ShellX then
    if value > 0 then { d with gs_ShellX := value } else d
  else if attr = GS_ShellY then
    if value > 0 then { d with gs_ShellY := value } else d
  else if attr = GS_ShellWidth then
    if value > 0 then { d with gs_ShellWidth := value } else d
  else if attr = GS_ShellHeight then
    if value > 0 then { d with gs_ShellHeight := value } else d
  else if attr = GS_AlphaSize then
    if value ≥ 0 then { d with gs_AlphaSize := value } else d
  else if attr = GS_DepthSize then
    if value ≥ 0 then { d with gs_DepthSize := value } else d
  else d

/-- `gs_set_attr_s` (os_linux.c lines 126-135): a NULL pointer is `none`;
`strlen` counts the UTF-8 bytes of the string. -/
def gs_set_attr_s (attr : Nat) (value : Option String) (d : AppDefaults) : AppDefaults :=
  if attr = GS_AppName then
    match value with
    | Option.none => d
    | some s => if s.utf8ByteSize < 40 then { d with gs_AppName := s } else d
  else d

/-! ## Window creation (`gs_create_window`, os_windows.c lines 151-183) -/

/-- A Win32 `RECT`. -/
structure Rect where
  left : Int
  top : Int
  right : Int
  bottom : Int
deriving DecidableEq, Repr

/-- Host inputs consumed by `gs_create_window`: the desktop rectangle
(`GetWindowRect(GetDesktopWindow())`) and `AdjustWindowRectEx` for the fixed
style pair used by the code. -/
structure CreateEnv where
  desktop : Rect
  adjust : Rect → Rect

/-- The arguments `gs_create_window` passes to `CreateWindowEx`. -/
structure WinArgs where
  title : String
  x : Int
  y : Int
  w : Int
  h : Int
deriving DecidableEq, Repr

/-- `gs_create_window` (os_windows.c lines 151-183): the window title and the
desired client size are fixed built-in values ("WinTest", 600x400), and the
x position is the constant 600. -/
def gs_create_window (e : CreateEnv) : WinArgs :=
  let xDefault : Int := 600
  let yDefault : Int := 400
  let rect : Rect := ⟨0, 0, xDefault - 1, yDefault - 1⟩
  let r := e.adjust rect
  let wWidth := r.right - r.left + 1
  let wHeight := r.bottom - r.top + 1
  let yTop := e.desktop.bottom - yDefault - wHeight
  ⟨"WinTest", 600, yTop, wWidth, wHeight⟩

/-! ## The WGL bootstrap (`gs_context`, os_windows.c lines 328-446)

Host call outcomes are an explicit environment.  Window handles are the model
values 1 (first, throwaway window) and 2 (final window); `GetDC` of window
`w` is the model value `w + 100`; the throwaway and final context handles are
201 and 202.  The run is recorded as a trace of host actions so ordering
properties can be stated. -/

structure WglEnv where
  registerOk : Bool
  /-- `ChoosePixelFormat` result for the plain descriptor; 0 = no format. -/
  simplePixelFormat : Nat
  /-- `wglCreateContext` returns non-NULL. -/
  simpleContextOk : Bool
  /-- `wglMakeCurrent` on the throwaway context succeeds. -/
  makeCurrentOk : Bool
  /-- `wglGetProcAddress` resolution of each of the six extension entry points. -/
  extGetExtensionsStringEXT : Bool
  extSwapInterval : Bool
  extGetExtensionsStringARB : Bool
  extCreateContextAttribs : Bool
  extGetPixelFormatAttribiv : Bool
  extChoosePixelFormat : Bool
  /-- `wglChoosePixelFormatARB` result; 0 = no format matched. -/
  arbPixelFormat : Nat
  /-- `wglCreateContextAttribsARB` returns non-NULL. -/
  finalContextOk : Bool
  /-- The local `HGLRC initialContext;` is never assigned when the simple
  pixel-format negotiation fails; this field is the arbitrary stack value the
  C code then reads. -/
  junkInitialContext : Nat
deriving DecidableEq, Repr

def dcOf (w : Nat) : Nat := w + 100
def throwCtx : Nat := 201
def finalCtx : Nat := 202

inductive GsAct where
  | registerClass
  | createWindow (w : Nat)
  | getDC (w : Nat)
  | setSimplePixelFormat (dc pf : Nat)
  | createSimpleContext (dc ctx : Nat)
  | makeCurrent (dc ctx : Nat)
  | deleteContext (ctx : Nat)
  | releaseDC (w : Nat)
  | bindExtensions
  | destroyWindow (w : Nat)
  | setArbPixelFormat (dc pf : Nat)
  | createFinalContext (dc ctx : Nat)
  | showWindow (w : Nat)
  | setForegroundWindow (w : Nat)
deriving DecidableEq, Repr

/-- `gs_display_dispose` (os_windows.c lines 313-322) as a trace: unbind and
delete the current context (`cur`; 0 when nothing is current), release the
device context and destroy the window. -/
def gs_display_dispose (w cur : Nat) : List GsAct :=
  [GsAct.makeCurrent 0 0, GsAct.deleteContext cur, GsAct.releaseDC w,
   GsAct.destroyWindow w]

structure GsResult where
  /-- The returned `HGLRC`; 0 on failure. -/
  context : Nat
  /-- Final value of `*display`. -/
  display : Nat
  /-- Final value of `*shell`. -/
  shell : Nat
  trace : List GsAct
deriving DecidableEq, Repr

/-- `gs_context` (os_windows.c lines 328-446), transcribed branch by branch.
Notes kept from the source:
  * the `if (shell == NULL)` check at line 358 tests the pointer argument,
    not `*shell`, so it can never fire and is not a branch here;
  * when `gs_get_initial_pixelformat` returns 0, the local `initialContext`
    is read uninitialized (line 379); its value is `e.junkInitialContext`;
  * on the throwaway path the context made current is `throwCtx`; if nothing
    was made current the current context is 0. -/
def gs_context (e : WglEnv) : GsResult :=
  if ¬ e.registerOk then ⟨0, 0, 0, []⟩ else
  -- create the initial window and its device context
  let tr0 : List GsAct :=
    [GsAct.registerClass, GsAct.createWindow 1, GsAct.getDC 1]
  -- gs_get_initial_pixelformat + wglCreateContext + wglMakeCurrent
  let step : Nat × Nat × List GsAct :=
    if e.simplePixelFormat ≠ 0 then
      if e.simpleContextOk then
        if e.makeCurrentOk then
          (throwCtx, throwCtx,
           [GsAct.setSimplePixelFormat (dcOf 1) e.simplePixelFormat,
            GsAct.createSimpleContext (dcOf 1) throwCtx,
            GsAct.makeCurrent (dcOf 1) throwCtx])
        else
          (0, 0,
           [GsAct.setSimplePixelFormat (dcOf 1) e.simplePixelFormat,
            GsAct.createSimpleContext (dcOf 1) throwCtx,
            GsAct.makeCurrent (dcOf 1) throwCtx,
            GsAct.deleteContext throwCtx])
      else
        (0, 0,
         [GsAct.setSimplePixelFormat (dcOf 1) e.simplePixelFormat,
          GsAct.createSimpleContext (dcOf 1) 0])
    else
      (e.junkInitialContext, 0, [])
  let ictx := step.1
  let cur := step.2.1
  let tr1 := tr0 ++ step.2.2
  if ictx = 0 then ⟨0, 1, dcOf 1, tr1⟩ else
  -- bind the six opengl extensions; all must resolve
  let tr2 := tr1 ++ [GsAct.bindExtensions]
  if ¬ (e.extGetExtensionsStringEXT ∧ e.extSwapInterval ∧
        e.extGetExtensionsStringARB ∧ e.extCreateContextAttribs ∧
        e.extGetPixelFormatAttribiv ∧ e.extChoosePixelFormat) then
    ⟨0, 1, dcOf 1, tr2⟩
  else
  -- destroy and recreate the initial window and context
  let tr3 := tr2 ++ gs_display_dispose 1 cur ++
    [GsAct.createWindow 2, GsAct.getDC 2]
  if e.arbPixelFormat = 0 then ⟨0, 2, dcOf 2, tr3⟩ else
  let tr4 := tr3 ++ [GsAct.setArbPixelFormat (dcOf 2) e.arbPixelFormat]
  -- now create the context on the fresh window
  if ¬ e.finalContextOk then
    ⟨0, 2, dcOf 2, tr4 ++ [GsAct.createFinalContext (dcOf 2) 0]⟩
  else
    ⟨finalCtx, 2, dcOf 2,
     tr4 ++ [GsAct.createFinalContext (dcOf 2) finalCtx,
             GsAct.makeCurrent (dcOf 2) finalCtx,
             GsAct.showWindow 2, GsAct.setForegroundWindow 2]⟩

/-! ## The event/render loop (`dev_run`, os_windows.c lines 460-482)

The pending-message stream seen by `PeekMessage` is a finite observation
window: each entry is either `none` (no message pending this iteration) or
`some (msg, wParam, lParam)`.  Dispatching a message applies the
`gs_wnd_proc` model; the only observable the loop reads back is the
`dev_win_alive` assignment. -/

inductive RAct where
  | setAlive (v : Int)
  | prepRender
  | renderFrame
  | dispatch (msg : Nat)
  | deleteContext
  | disposeDisplay
deriving DecidableEq, Repr

/-- One `PeekMessage` outcome. -/
def MsgSlot : Type := Option (Nat × Nat × Int)

/-- The `while (dev_win_alive == 1)` loop.  `WM_QUIT` returns immediately
(skipping the cleanup after the loop); any other message is dispatched to
`gs_wnd_proc` and then `renderFrame()` runs.  An exhausted slot list means
the loop is still running when observation stops. -/
def devRunLoop (alive : Int) (slots : List MsgSlot) (acc : List RAct) :
    Int × List RAct :=
  if alive ≠ 1 then
    (alive, acc ++ [RAct.deleteContext, RAct.disposeDisplay])
  else
    match slots with
    | [] => (alive, acc)
    | Option.none :: rest => devRunLoop alive rest (acc ++ [RAct.renderFrame])
    | some (m, w, l) :: rest =>
      if m = WM_QUIT then
        (-2, acc)
      else
        devRunLoop ((gs_wnd_proc m w l).aliveSet.getD alive) rest
          (acc ++ [RAct.dispatch m, RAct.renderFrame])
termination_by slots.length

structure RunResult where
  context : Nat
  finalAlive : Int
  trace : List RAct
deriving DecidableEq, Repr

/-- `dev_run` (os_windows.c lines 460-482): bootstrap, set the alive flag,
`prepRender()`, then loop.  The bootstrap outcome is stored but never
consulted by the loop. -/
def dev_run (e : WglEnv) (slots : List MsgSlot) : RunResult :=
  let g := gs_context e
  let r := devRunLoop 1 slots [RAct.setAlive 1, RAct.prepRender]
  ⟨g.context, r.1, r.2⟩

/-- A pending message that stops the loop: `WM_QUIT` (handled inline) or
`WM_CLOSE` (sets `dev_win_alive = -2` through `gs_wnd_proc`). -/
def stopsLoop : MsgSlot → Bool
  | Option.none => false
  | some (m, _, _) => m = WM_QUIT || m = WM_CLOSE

/-! ## The fullscreen toggle (`dev_toggle_fullscreen`, os_windows.c 508-551)

The host-side window state is a `WinView`: its style words, its current
rectangle, whether it is maximized, and the normal rectangle the host
restores on `SC_RESTORE` (Win32 keeps this per window).  `SendMessage` of
`SC_RESTORE`/`SC_MAXIMIZE` and `SetWindowPos`/`SetWindowLong` act on this
record. -/

/-- Window style bits stripped when entering fullscreen (windows.h values). -/
def WS_CAPTION : Nat := 0x00C00000
def WS_THICKFRAME : Nat := 0x00040000
def WS_EX_DLGMODALFRAME : Nat := 0x00000001
def WS_EX_WINDOWEDGE : Nat := 0x00000100
def WS_EX_CLIENTEDGE : Nat := 0x00000200
def WS_EX_STATICEDGE : Nat := 0x00020000

/-- `GSScreen` (os_windows.h lines 22-29): the fullscreen snapshot. -/
structure GSScreen where
  full : Bool
  maxed : Bool
  style : Nat
  ex_style : Nat
  rect : Rect
deriving DecidableEq, Repr

/-- `static screenInfo dev_screen = {0, 0, 0, 0, {0, 0, 0, 0}};` -/
def dev_screen0 : GSScreen := ⟨false, false, 0, 0, ⟨0, 0, 0, 0⟩⟩

/-- Host-side window state read and written by the toggle. -/
structure WinView where
  style : Nat
  ex_style : Nat
  rect : Rect
  maximized : Bool
  /-- The rectangle the host restores on `SC_RESTORE` of a maximized window. -/
  normalRect : Rect
deriving DecidableEq, Repr

/-- Win32 `SendMessage(WM_SYSCOMMAND, SC_RESTORE)`: a maximized window
returns to its normal rectangle. -/
def scRestore (w : WinView) : WinView :=
  if w.maximized then { w with maximized := false, rect := w.normalRect } else w

/-- Win32 `SendMessage(WM_SYSCOMMAND, SC_MAXIMIZE)`: the window fills the
monitor work area `maxArea`, remembering its normal rectangle. -/
def scMaximize (maxArea : Rect) (w : WinView) : WinView :=
  if w.maximized then w
  else { w with maximized := true, normalRect := w.rect, rect := maxArea }

/-- Result of one toggle: the updated snapshot and window, plus the
`PostMessage(display, WM_EXITSIZEMOVE, 0, 0)` always issued at the end to
trigger a resize event. -/
structure ToggleOut where
  screen : GSScreen
  win : WinView
  postedExitSizeMove : Bool
deriving DecidableEq, Repr

/-- `dev_toggle_fullscreen` (os_windows.c lines 508-551).  `mon` is the
rectangle of the monitor the window occupies (`GetMonitorInfo.rcMonitor`);
`maxArea` is the area a maximized window covers. -/
def dev_toggle_fullscreen (mon maxArea : Rect) (s : GSScreen) (w : WinView) :
    ToggleOut :=
  -- snapshot phase: only when not currently fullscreen
  let step : GSScreen × WinView :=
    if ¬ s.full then
      let maxed := w.maximized
      let w1 := if maxed then scRestore w else w
      ({ s with maxed := maxed, style := w1.style, ex_style := w1.ex_style,
                rect := w1.rect }, w1)
    else (s, w)
  let s1 := step.1
  let w1 := step.2
  let s2 := { s1 with full := ¬ s1.full }
  if s2.full then
    -- strip decorations and cover the monitor
    let w2 := { w1 with
      style := clearMask s2.style (WS_CAPTION ||| WS_THICKFRAME),
      ex_style := clearMask s2.ex_style
        (WS_EX_DLGMODALFRAME ||| WS_EX_WINDOWEDGE |||
         WS_EX_CLIENTEDGE ||| WS_EX_STATICEDGE),
      rect := mon }
    ⟨s2, w2, true⟩
  else
    -- reapply the snapshotted styles and rectangle, re-maximize if needed
    let w2 := { w1 with style := s2.style, ex_style := s2.ex_style,
                        rect := s2.rect }
    let w3 := if s2.maxed then scMaximize maxArea w2 else w2
    ⟨s2, w3, true⟩

/-! ## Cursor position (os_windows.c lines 566-595) -/

/-- Host state for the cursor calls: the window client rectangle
(`GetClientRect`, origin 0,0), the screen coordinates of the client origin
(applied by `ClientToScreen`/`ScreenToClient`), the current cursor position
in screen coordinates, and the success of the two checked calls. -/
structure CursorEnv where
  client : Rect
  originX : Int
  originY : Int
  cursorX : Int
  cursorY : Int
  getClientRectOk : Bool
  clientToScreenOk : Bool
deriving DecidableEq, Repr

/-- `dev_cursor` (os_windows.c lines 568-577): sample the cursor, convert to
client coordinates, and flip y so the origin is the bottom-left corner. -/
def dev_cursor (e : CursorEnv) : Int × Int :=
  let px := e.cursorX - e.originX
  let py := e.cursorY - e.originY
  (px, e.client.bottom - py)

/-- `dev_set_cursor_location` (os_windows.c lines 582-595): flip the incoming
bottom-left-origin y to top-left, convert to screen coordinates and place the
cursor there; both host calls are checked and failure leaves the cursor
alone. -/
def dev_set_cursor_location (e : CursorEnv) (x y : Int) : CursorEnv :=
  if e.getClientRectOk then
    let locX := x
    let locY := e.client.bottom - y
    if e.clientToScreenOk then
      { e with cursorX := locX + e.originX, cursorY := locY + e.originY }
    else e
  else e

/-! ## Auxiliary definitions used by the theorem statements -/

/-- `gs_wnd_proc` issued a `devResize` callback for this message. -/
def emitsResize (o : ProcOut) : Bool :=
  o.calls.any (fun c => c.1 = devResize)

/-- Action `a` occurs in `tr` strictly before some occurrence of `b`. -/
def occursBefore (a b : GsAct) (tr : List GsAct) : Prop :=
  ∃ pre post, tr = pre ++ a :: post ∧ b ∈ post

/-- Entering and then exiting fullscreen. -/
def toggleTwice (mon maxArea : Rect) (s : GSScreen) (w : WinView) : ToggleOut :=
  let t1 := dev_toggle_fullscreen mon maxArea s w
  dev_toggle_fullscreen mon maxArea t1.screen t1.win

/-- A host where every bootstrap call succeeds. -/
def okEnv : WglEnv :=
  ⟨true, 3, true, true, true, true, true, true, true, true, 4, true, 0⟩

/-- A host where the simple pixel-format negotiation fails
(`ChoosePixelFormat` returns 0) while the uninitialized stack value read as
`initialContext` happens to be the non-null garbage 31, and every later host
call would succeed. -/
def junkEnv : WglEnv :=
  ⟨true, 0, false, false, true, true, true, true, true, true, 4, true, 31⟩

/-- A concrete creation environment: a 1024x768 desktop and an
`AdjustWindowRectEx` that adds no frame. -/
def createEnv0 : CreateEnv := ⟨⟨0, 0, 1024, 768⟩, fun r => r⟩

/-- A concrete cursor environment: a 640x480 client area whose origin sits at
screen position (10, 20). -/
def cursorEnv0 : CursorEnv := ⟨⟨0, 0, 640, 480⟩, 10, 20, 0, 0, true, true⟩

/-! # Theorems -/

/-- C4: pushing `capacity + 1 = 6` events into the empty bounded circular
event queue (capacity 5) before any poll leaves exactly `capacity` events
retrievable, and draining retrieves the most recent 5 notifications in their
production order — the oldest (`e0`) is silently overwritten. -/
theorem eventQueue_overflow_drops_oldest {α : Type} (e0 e1 e2 e3 e4 e5 : α) :
    ((((((EventQueue.empty.push e0).push e1).push e2).push e3).push
        e4).push e5).size = qcap ∧
    ((((((EventQueue.empty.push e0).push e1).push e2).push e3).push
        e4).push e5).drain = [e1, e2, e3, e4, e5] := by
  refine ⟨rfl, ?_⟩
  simp [EventQueue.empty, EventQueue.push, EventQueue.poll, EventQueue.drain,
    EventQueue.drainN, qcap, List.replicate]

/-- C8: each configuration setter ignores invalid values (non-positive
position/size, negative alpha or depth bits, a missing name or one whose
C string does not fit the 40-byte buffer) keeping the prior record intact,
and a valid value replaces exactly the addressed attribute. -/
theorem gs_set_attr_validation (d : AppDefaults) (v : Int) (s : String) :
    gs_set_attr_l GS_ShellX v d
      = (if v > 0 then { d with gs_ShellX := v } else d) ∧
    gs_set_attr_l GS_ShellY v d
      = (if v > 0 then { d with gs_ShellY := v } else d) ∧
    gs_set_attr_l GS_ShellWidth v d
      = (if v > 0 then { d with gs_ShellWidth := v } else d) ∧
    gs_set_attr_l GS_ShellHeight v d
      = (if v > 0 then { d with gs_ShellHeight := v } else d) ∧
    gs_set_attr_l GS_AlphaSize v d
      = (if v ≥ 0 then { d with gs_AlphaSize := v } else d) ∧
    gs_set_attr_l GS_DepthSize v d
      = (if v ≥ 0 then { d with gs_DepthSize := v } else d) ∧
    gs_set_attr_s GS_AppName Option.none d = d ∧
    gs_set_attr_s GS_AppName (some s) d
      = (if s.utf8ByteSize < 40 then { d with gs_AppName := s } else d) := by
  refine ⟨?_, ?_, ?_, ?_, ?_, ?_, ?_, ?_⟩ <;>
    simp [gs_set_attr_l, gs_set_attr_s, GS_AppName, GS_ShellX, GS_ShellY,
      GS_ShellWidth, GS_ShellHeight, GS_AlphaSize, GS_DepthSize]

/-- C9: setting the cursor to a point `(x, y)` of the client area (bottom-left
origin) and reading it back returns the same point — the `y := bottom - y`
flip is its own inverse while the client rectangle is unchanged. -/
theorem cursor_roundtrip (e : CursorEnv) (x y : Int)
    (hr : e.getClientRectOk = true) (hc : e.clientToScreenOk = true)
    (hx0 : 0 ≤ x) (hx1 : x ≤ e.client.right)
    (hy0 : 0 ≤ y) (hy1 : y ≤ e.client.bottom) :
    dev_cursor (dev_set_cursor_location e x y) = (x, y) := by
  simp [dev_cursor, dev_set_cursor_location, hr, hc]

/-- Witness for C9 at the concrete environment `cursorEnv0` and point (5, 7). -/
theorem cursor_roundtrip_witness :
    dev_cursor (dev_set_cursor_location cursorEnv0 5 7) = (5, 7) :=
  cursor_roundtrip cursorEnv0 5 7 rfl rfl (by decide) (by decide)
    (by decide) (by decide)

/-- C3: starting from a non-fullscreen window, toggling fullscreen twice
restores the style flags, extended style flags and rectangle exactly to the
values snapshotted before the first toggle when the window was not maximized;
when it was maximized, the first toggle restores it to normal before taking
the snapshot (the snapshot holds the normal rectangle) and the second toggle
re-maximizes after restoring, leaving the window maximized. -/
theorem fullscreen_roundtrip (mon maxArea : Rect) (s0 : GSScreen)
    (w0 : WinView) (h : s0.full = false) :
    (w0.maximized = false →
      (toggleTwice mon maxArea s0 w0).win.style = w0.style ∧
      (toggleTwice mon maxArea s0 w0).win.ex_style = w0.ex_style ∧
      (toggleTwice mon maxArea s0 w0).win.rect = w0.rect ∧
      (toggleTwice mon maxArea s0 w0).win.maximized = false) ∧
    (w0.maximized = true →
      (dev_toggle_fullscreen mon maxArea s0 w0).screen.maxed = true ∧
      (dev_toggle_fullscreen mon maxArea s0 w0).screen.rect = w0.normalRect ∧
      (toggleTwice mon maxArea s0 w0).win.style = w0.style ∧
      (toggleTwice mon maxArea s0 w0).win.ex_style = w0.ex_style ∧
      (toggleTwice mon maxArea s0 w0).win.maximized = true) ∧
    (toggleTwice mon maxArea s0 w0).screen.full = false := by
  cases hm : w0.maximized <;>
    simp [toggleTwice, dev_toggle_fullscreen, scRestore, scMaximize, h, hm]

/-- Witness for C3 at a concrete non-maximized and a concrete maximized
window. -/
theorem fullscreen_roundtrip_witness :
    ((toggleTwice ⟨0, 0, 1920, 1080⟩ ⟨0, 0, 1920, 1040⟩ dev_screen0
        ⟨77, 33, ⟨5, 6, 7, 8⟩, false, ⟨5, 6, 7, 8⟩⟩).win.rect = ⟨5, 6, 7, 8⟩) ∧
    ((toggleTwice ⟨0, 0, 1920, 1080⟩ ⟨0, 0, 1920, 1040⟩ dev_screen0
        ⟨77, 33, ⟨0, 0, 1920, 1040⟩, true, ⟨5, 6, 7, 8⟩⟩).win.maximized = true) :=
  ⟨((fullscreen_roundtrip ⟨0, 0, 1920, 1080⟩ ⟨0, 0, 1920, 1040⟩ dev_screen0
      ⟨77, 33, ⟨5, 6, 7, 8⟩, false, ⟨5, 6, 7, 8⟩⟩ rfl).1 rfl).2.2.1,
   (((fullscreen_roundtrip ⟨0, 0, 1920, 1080⟩ ⟨0, 0, 1920, 1040⟩ dev_screen0
      ⟨77, 33, ⟨0, 0, 1920, 1040⟩, true, ⟨5, 6, 7, 8⟩⟩ rfl).2.1 rfl).2.2.2.2)⟩

/-- C6: the window procedure emits a `devResize` callback exactly for the
end of a resize gesture (`WM_EXITSIZEMOVE`) and for maximize/restore
(`WM_SIZE` with `SIZE_MAXIMIZED` or `SIZE_RESTORED`); in particular the
in-progress resize notification `WM_SIZING` (delivered on every intermediate
frame of a resize drag) produces no callback at all. -/
theorem resize_emission (msg wParam : Nat) (l l2 : Int) :
    (emitsResize (gs_wnd_proc msg wParam l) = true ↔
      msg = WM_EXITSIZEMOVE ∨
        (msg = WM_SIZE ∧ (wParam = SIZE_MAXIMIZED ∨ wParam = SIZE_RESTORED))) ∧
    (gs_wnd_proc WM_SIZING wParam l2).calls = [] := by
  constructor
  · by_cases hA : msg = WM_ACTIVATE
    · subst hA
      simp [gs_wnd_proc, procActivate, emitsResize, WM_ACTIVATE,
        WM_SYSCOMMAND, WM_CLOSE, WM_KEYDOWN, WM_KEYUP, WM_SYSKEYDOWN,
        WM_SYSKEYUP, WM_LBUTTONDOWN, WM_LBUTTONUP, WM_MBUTTONDOWN,
        WM_MBUTTONUP, WM_RBUTTONDOWN, WM_RBUTTONUP, WM_MOUSEWHEEL, WM_SIZE,
        WM_EXITSIZEMOVE, WA_INACTIVE, devFocusIn, devFocusOut, devResize]
      all_goals split <;> simp
    by_cases hB : msg = WM_SYSCOMMAND
    · subst hB
      simp [gs_wnd_proc, procSysCommand, ProcOut.none0, emitsResize,
        WM_ACTIVATE, WM_SYSCOMMAND, WM_CLOSE, WM_KEYDOWN, WM_KEYUP,
        WM_SYSKEYDOWN, WM_SYSKEYUP, WM_LBUTTONDOWN, WM_LBUTTONUP,
        WM_MBUTTONDOWN, WM_MBUTTONUP, WM_RBUTTONDOWN, WM_RBUTTONUP,
        WM_MOUSEWHEEL, WM_SIZE, WM_EXITSIZEMOVE, SC_KEYMENU, devResize]
      all_goals split <;> simp
    by_cases hC : msg = WM_CLOSE
    · subst hC
      simp [gs_wnd_proc, procClose, ProcOut.none0, emitsResize, WM_ACTIVATE,
        WM_SYSCOMMAND, WM_CLOSE, WM_SIZE, WM_EXITSIZEMOVE, devResize]
    by_cases hK : msg = WM_KEYDOWN ∨ msg = WM_KEYUP ∨
        msg = WM_SYSKEYDOWN ∨ msg = WM_SYSKEYUP
    · rcases hK with hk | hk | hk | hk <;> subst hk <;>
        simp [gs_wnd_proc, procKey, ProcOut.none0, emitsResize, WM_ACTIVATE,
          WM_SYSCOMMAND, WM_CLOSE, WM_KEYDOWN, WM_KEYUP, WM_SYSKEYDOWN,
          WM_SYSKEYUP, WM_SIZE, WM_EXITSIZEMOVE, devUp, devDown, devResize]
    by_cases hL : msg = WM_LBUTTONDOWN
    · subst hL
      simp [gs_wnd_proc, procButtonDown, ProcOut.none0, emitsResize,
        WM_ACTIVATE, WM_SYSCOMMAND, WM_CLOSE, WM_KEYDOWN, WM_KEYUP,
        WM_SYSKEYDOWN, WM_SYSKEYUP, WM_LBUTTONDOWN, WM_SIZE,
        WM_EXITSIZEMOVE, devDown, devResize, devMouseL]
    by_cases hM : msg = WM_LBUTTONUP
    · subst hM
      simp [gs_wnd_proc, procButtonUp, ProcOut.none0, emitsResize,
        WM_ACTIVATE, WM_SYSCOMMAND, WM_CLOSE, WM_KEYDOWN, WM_KEYUP,
        WM_SYSKEYDOWN, WM_SYSKEYUP, WM_LBUTTONDOWN, WM_LBUTTONUP, WM_SIZE,
        WM_EXITSIZEMOVE, devUp, devResize, devMouseL]
    by_cases hN : msg = WM_MBUTTONDOWN
    · subst hN
      simp [gs_wnd_proc, procButtonDown, ProcOut.none0, emitsResize,
        WM_ACTIVATE, WM_SYSCOMMAND, WM_CLOSE, WM_KEYDOWN, WM_KEYUP,
        WM_SYSKEYDOWN, WM_SYSKEYUP, WM_LBUTTONDOWN, WM_LBUTTONUP,
        WM_MBUTTONDOWN, WM_SIZE, WM_EXITSIZEMOVE, devDown, devResize,
        devMouseM]
    by_cases hO : msg = WM_MBUTTONUP
    · subst hO
      simp [gs_wnd_proc, procButtonUp, ProcOut.none0, emitsResize,
        WM_ACTIVATE, WM_SYSCOMMAND, WM_CLOSE, WM_KEYDOWN, WM_KEYUP,
        WM_SYSKEYDOWN, WM_SYSKEYUP, WM_LBUTTONDOWN, WM_LBUTTONUP,
        WM_MBUTTONDOWN, WM_MBUTTONUP, WM_SIZE, WM_EXITSIZEMOVE, devUp,
        devResize, devMouseM]
    by_cases hP : msg = WM_RBUTTONDOWN
    · subst hP
      simp [gs_wnd_proc, procButtonDown, ProcOut.none0, emitsResize,
        WM_ACTIVATE, WM_SYSCOMMAND, WM_CLOSE, WM_KEYDOWN, WM_KEYUP,
        WM_SYSKEYDOWN, WM_SYSKEYUP, WM_LBUTTONDOWN, WM_LBUTTONUP,
        WM_MBUTTONDOWN, WM_MBUTTONUP, WM_RBUTTONDOWN, WM_SIZE,
        WM_EXITSIZEMOVE, devDown, devResize, devMouseR]
    by_cases hQ : msg = WM_RBUTTONUP
    · subst hQ
      simp [gs_wnd_proc, procButtonUp, ProcOut.none0, emitsResize,
        WM_ACTIVATE, WM_SYSCOMMAND, WM_CLOSE, WM_KEYDOWN, WM_KEYUP,
        WM_SYSKEYDOWN, WM_SYSKEYUP, WM_LBUTTONDOWN, WM_LBUTTONUP,
        WM_MBUTTONDOWN, WM_MBUTTONUP, WM_RBUTTONDOWN, WM_RBUTTONUP, WM_SIZE,
        WM_EXITSIZEMOVE, devUp, devResize, devMouseR]
    by_cases hR : msg = WM_MOUSEWHEEL
    · subst hR
      simp [gs_wnd_proc, procWheel, ProcOut.none0, emitsResize, WM_ACTIVATE,
        WM_SYSCOMMAND, WM_CLOSE, WM_KEYDOWN, WM_KEYUP, WM_SYSKEYDOWN,
        WM_SYSKEYUP, WM_LBUTTONDOWN, WM_LBUTTONUP, WM_MBUTTONDOWN,
        WM_MBUTTONUP, WM_RBUTTONDOWN, WM_RBUTTONUP, WM_MOUSEWHEEL, WM_SIZE,
        WM_EXITSIZEMOVE, devScroll, devResize]
    by_cases hS : msg = WM_SIZE
    · subst hS
      simp [gs_wnd_proc, procSize, ProcOut.none0, emitsResize, WM_ACTIVATE,
        WM_SYSCOMMAND, WM_CLOSE, WM_KEYDOWN, WM_KEYUP, WM_SYSKEYDOWN,
        WM_SYSKEYUP, WM_LBUTTONDOWN, WM_LBUTTONUP, WM_MBUTTONDOWN,
        WM_MBUTTONUP, WM_RBUTTONDOWN, WM_RBUTTONUP, WM_MOUSEWHEEL, WM_SIZE,
        WM_EXITSIZEMOVE, SIZE_MAXIMIZED, SIZE_RESTORED, devResize]
      all_goals split <;> simp_all
    by_cases hT : msg = WM_EXITSIZEMOVE
    · subst hT
      simp [gs_wnd_proc, procExitSizeMove, ProcOut.none0, emitsResize,
        WM_ACTIVATE, WM_SYSCOMMAND, WM_CLOSE, WM_KEYDOWN, WM_KEYUP,
        WM_SYSKEYDOWN, WM_SYSKEYUP, WM_LBUTTONDOWN, WM_LBUTTONUP,
        WM_MBUTTONDOWN, WM_MBUTTONUP, WM_RBUTTONDOWN, WM_RBUTTONUP,
        WM_MOUSEWHEEL, WM_SIZE, WM_EXITSIZEMOVE, devResize]
    · simp [gs_wnd_proc, procDefault, ProcOut.none0, emitsResize, hA, hB, hC,
        hK, hL, hM, hN, hO, hP, hQ, hR, hS, hT]
  · rfl

/-- Absorption: the bits of `b` are all present after or-ing `b` in. -/
theorem lor_land_absorb (m b : Nat) : (m ||| b) &&& b = b := by
  apply Nat.eq_of_testBit_eq
  intro i
  rw [Nat.testBit_land, Nat.testBit_lor]
  cases hm : Nat.testBit m i <;> cases hb : Nat.testBit b i <;> rfl

/-- Clearing the bits of `b` removes them all. -/
theorem ldiff_land_eq_zero (m b : Nat) : Nat.ldiff m b &&& b = 0 := by
  apply Nat.eq_of_testBit_eq
  intro i
  rw [Nat.testBit_land, Nat.testBit_ldiff, Nat.zero_testBit]
  cases hm : Nat.testBit m i <;> cases hb : Nat.testBit b i <;> rfl

/-- C5: a key press or release notification (any of the four key messages)
whose key is one of the four pure-modifier keys queues no standalone
key-down/key-up normalized event, while the key still contributes its bit to
the modifier mask (set on press, cleared again on release); every other key
is queued with its raw host key code passed through unchanged. -/
theorem modifier_keys_suppressed (st : NormState) (k : Nat) :
    (modKeyBit (k : Int) ≠ 0 →
      (processMsg st WM_KEYDOWN k 0).queue = st.queue ∧
      (processMsg st WM_SYSKEYDOWN k 0).queue = st.queue ∧
      (processMsg st WM_KEYUP k 0).queue = st.queue ∧
      (processMsg st WM_SYSKEYUP k 0).queue = st.queue ∧
      (processMsg st WM_KEYDOWN k 0).mask &&& modKeyBit (k : Int)
        = modKeyBit (k : Int) ∧
      (processMsg (processMsg st WM_KEYDOWN k 0) WM_KEYUP k 0).mask &&&
          modKeyBit (k : Int) = 0) ∧
    (modKeyBit (k : Int) = 0 →
      (processMsg st WM_KEYDOWN k 0).queue
        = st.queue.push ⟨devDown, (k : Int)⟩ ∧
      (processMsg st WM_SYSKEYDOWN k 0).queue
        = st.queue.push ⟨devDown, (k : Int)⟩ ∧
      (processMsg st WM_KEYUP k 0).queue
        = st.queue.push ⟨devUp, (k : Int)⟩ ∧
      (processMsg st WM_SYSKEYUP k 0).queue
        = st.queue.push ⟨devUp, (k : Int)⟩ ∧
      (processMsg st WM_KEYDOWN k 0).mask = st.mask) := by
  constructor
  · intro hmod
    refine ⟨?_, ?_, ?_, ?_, ?_, ?_⟩ <;>
      simp [processMsg, gs_wnd_proc, procKey, handleInput, hmod,
        WM_ACTIVATE, WM_SYSCOMMAND, WM_CLOSE, WM_KEYDOWN, WM_KEYUP,
        WM_SYSKEYDOWN, WM_SYSKEYUP, devUp, devDown, ProcOut.none0,
        lor_land_absorb, clearMask, ldiff_land_eq_zero]
  · intro hmod
    refine ⟨?_, ?_, ?_, ?_, ?_⟩ <;>
      simp [processMsg, gs_wnd_proc, procKey, handleInput, hmod,
        WM_ACTIVATE, WM_SYSCOMMAND, WM_CLOSE, WM_KEYDOWN, WM_KEYUP,
        WM_SYSKEYDOWN, WM_SYSKEYUP, devUp, devDown, ProcOut.none0]

/-- Witness for C5 at the empty normalizer state: the shift key (VK 0x10) is
suppressed and sets its mask bit; the letter key 0x41 passes through. -/
theorem modifier_keys_suppressed_witness :
    (processMsg NormState.empty WM_KEYDOWN 0x10 0).queue
      = NormState.empty.queue ∧
    (processMsg NormState.empty WM_KEYDOWN 0x10 0).mask &&&
        modKeyBit 0x10 = modKeyBit 0x10 ∧
    (processMsg NormState.empty WM_KEYDOWN 0x41 0).queue
      = NormState.empty.queue.push ⟨devDown, 0x41⟩ :=
  ⟨((modifier_keys_suppressed NormState.empty 0x10).1 (by decide)).1,
   (((modifier_keys_suppressed NormState.empty 0x10).1 (by decide)).2.2).2.2.1,
   ((modifier_keys_suppressed NormState.empty 0x41).2 (by decide)).1⟩

/-- Witness for C6: `WM_EXITSIZEMOVE` does emit a resize, a mid-drag
`WM_SIZE` with `SIZE_MINIMIZED` would not, and `WM_SIZING` emits nothing. -/
theorem resize_emission_witness :
    emitsResize (gs_wnd_proc WM_EXITSIZEMOVE 0 0) = true ∧
    ¬ emitsResize (gs_wnd_proc WM_MOUSEWHEEL 0 0) = true ∧
    (gs_wnd_proc WM_SIZING 0 0).calls = [] := by
  refine ⟨(resize_emission WM_EXITSIZEMOVE 0 0 0).1.mpr (Or.inl rfl), ?_, ?_⟩
  · intro hw
    rcases (resize_emission WM_MOUSEWHEEL 0 0 0).1.mp hw with h | ⟨h, _⟩ <;>
      exact absurd h (by decide)
  · exact (resize_emission 0 0 0 0).2

/-- C7 counterexample: at the concrete host `createEnv0`, the window created
by `gs_create_window` (used for window #2 in bootstrap step 6) carries the
fixed built-in title "WinTest", x position 600 and a 600-wide frame — not
the configured `AppDefaults` title "App", x 100 and width 240. -/
theorem create_window_not_configured :
    (gs_create_window createEnv0).title ≠ defaults0.gs_AppName ∧
    (gs_create_window createEnv0).x ≠ defaults0.gs_ShellX ∧
    (gs_create_window createEnv0).w ≠ defaults0.gs_ShellWidth ∧
    gs_create_window createEnv0 = ⟨"WinTest", 600, 768 - 400 - 400, 600, 400⟩ := by
  refine ⟨?_, by decide, by decide, rfl⟩
  intro h
  exact absurd (congrArg String.length h) (by decide)

/-- C7 amended: `gs_create_window` never consults the configuration — for
every host environment the created window has the built-in title "WinTest",
x position 600, and a frame adjusted around the fixed 600x400 client
rectangle. -/
theorem create_window_fixed_attributes (e : CreateEnv) :
    (gs_create_window e).title = "WinTest" ∧
    (gs_create_window e).x = 600 ∧
    (gs_create_window e).w
      = (e.adjust ⟨0, 0, 599, 399⟩).right - (e.adjust ⟨0, 0, 599, 399⟩).left + 1 ∧
    (gs_create_window e).h
      = (e.adjust ⟨0, 0, 599, 399⟩).bottom - (e.adjust ⟨0, 0, 599, 399⟩).top + 1 :=
  ⟨rfl, rfl, rfl, rfl⟩

/-- C2: the code intends to return 0 whenever a bootstrap step fails, but on
the simple pixel-format failure path the local `initialContext` is read
uninitialized (os_windows.c line 379).  In the environment `junkEnv`, where
`ChoosePixelFormat` returns 0 and the stack garbage is non-null, `gs_context`
runs the whole bootstrap and returns a non-zero context instead of 0. -/
theorem gs_context_uninitialized_escape :
    junkEnv.simplePixelFormat = 0 ∧
    (gs_context junkEnv).context = finalCtx ∧
    (gs_context junkEnv).context ≠ 0 := by
  refine ⟨rfl, rfl, by decide⟩

/-- Companion fact for C2: every *checked* failure branch does return 0 — a
failed simple format with zero-initialized stack, a failed throwaway context,
a failed activation, any one missing extension, a failed attribute-based
format selection, and a failed final context creation. -/
theorem gs_context_checked_failures :
    (gs_context { okEnv with simplePixelFormat := 0 }).context = 0 ∧
    (gs_context { okEnv with simpleContextOk := false }).context = 0 ∧
    (gs_context { okEnv with makeCurrentOk := false }).context = 0 ∧
    (gs_context { okEnv with extGetExtensionsStringEXT := false }).context = 0 ∧
    (gs_context { okEnv with extSwapInterval := false }).context = 0 ∧
    (gs_context { okEnv with extGetExtensionsStringARB := false }).context = 0 ∧
    (gs_context { okEnv with extCreateContextAttribs := false }).context = 0 ∧
    (gs_context { okEnv with extGetPixelFormatAttribiv := false }).context = 0 ∧
    (gs_context { okEnv with extChoosePixelFormat := false }).context = 0 ∧
    (gs_context { okEnv with arbPixelFormat := 0 }).context = 0 ∧
    (gs_context { okEnv with finalContextOk := false }).context = 0 ∧
    (gs_context { okEnv with registerOk := false }).context = 0 := by
  refine ⟨rfl, rfl, rfl, rfl, rfl, rfl, rfl, rfl, rfl, rfl, rfl, rfl⟩

/-- C1: whenever `gs_context` returns a non-zero context, the final window is
window 2 (not window 1 of step 2): window 1 — and the throwaway context when
one was created — is destroyed before window 2 is created, the final context
is created against the device context of window 2, and never against the device
context of window 1. -/
theorem gs_context_window_identity (e : WglEnv)
    (h : (gs_context e).context ≠ 0) :
    (gs_context e).display = 2 ∧
    occursBefore (GsAct.destroyWindow 1) (GsAct.createWindow 2)
      (gs_context e).trace ∧
    (GsAct.createSimpleContext (dcOf 1) throwCtx ∈ (gs_context e).trace →
      occursBefore (GsAct.deleteContext throwCtx) (GsAct.createWindow 2)
        (gs_context e).trace) ∧
    GsAct.createFinalContext (dcOf 2) finalCtx ∈ (gs_context e).trace ∧
    (∀ c, GsAct.createFinalContext (dcOf 1) c ∉ (gs_context e).trace) ∧
    dcOf 1 ≠ dcOf 2 := by
  rcases e with ⟨reg, spf, sctx, mc, x1, x2, x3, x4, x5, x6, arb, fin, junk⟩
  cases reg
  · simp [gs_context] at h
  by_cases hspf : spf = 0
  · -- the uninitialized-garbage path: no throwaway context ever existed
    subst hspf
    by_cases hj : junk = 0
    · subst hj
      simp [gs_context, throwCtx, finalCtx, dcOf, gs_display_dispose] at h
    cases x1
    · simp [gs_context, throwCtx, finalCtx, dcOf, gs_display_dispose, hj] at h
    cases x2
    · simp [gs_context, throwCtx, finalCtx, dcOf, gs_display_dispose, hj] at h
    cases x3
    · simp [gs_context, throwCtx, finalCtx, dcOf, gs_display_dispose, hj] at h
    cases x4
    · simp [gs_context, throwCtx, finalCtx, dcOf, gs_display_dispose, hj] at h
    cases x5
    · simp [gs_context, throwCtx, finalCtx, dcOf, gs_display_dispose, hj] at h
    cases x6
    · simp [gs_context, throwCtx, finalCtx, dcOf, gs_display_dispose, hj] at h
    by_cases harb : arb = 0
    · simp [gs_context, throwCtx, finalCtx, dcOf, gs_display_dispose, hj,
        harb] at h
    cases fin
    · simp [gs_context, throwCtx, finalCtx, dcOf, gs_display_dispose, hj,
        harb] at h
    have hg : gs_context ⟨true, 0, sctx, mc, true, true, true, true, true,
        true, arb, true, junk⟩ =
        ⟨202, 2, 102,
         [GsAct.registerClass, GsAct.createWindow 1, GsAct.getDC 1,
          GsAct.bindExtensions, GsAct.makeCurrent 0 0, GsAct.deleteContext 0,
          GsAct.releaseDC 1, GsAct.destroyWindow 1, GsAct.createWindow 2,
          GsAct.getDC 2, GsAct.setArbPixelFormat 102 arb,
          GsAct.createFinalContext 102 202, GsAct.makeCurrent 102 202,
          GsAct.showWindow 2, GsAct.setForegroundWindow 2]⟩ := by
      simp [gs_context, throwCtx, finalCtx, dcOf, gs_display_dispose, hj,
        harb]
    rw [hg]
    simp only [occursBefore, dcOf, throwCtx, finalCtx]
    refine ⟨trivial, ?_, ?_, by simp, ?_, by decide⟩
    · exact ⟨[GsAct.registerClass, GsAct.createWindow 1, GsAct.getDC 1,
        GsAct.bindExtensions, GsAct.makeCurrent 0 0, GsAct.deleteContext 0,
        GsAct.releaseDC 1],
        [GsAct.createWindow 2, GsAct.getDC 2,
         GsAct.setArbPixelFormat 102 arb, GsAct.createFinalContext 102 202,
         GsAct.makeCurrent 102 202, GsAct.showWindow 2,
         GsAct.setForegroundWindow 2], rfl, by simp⟩
    · intro hmem
      simp at hmem
    · intro c
      simp
  · -- the intended path through the throwaway context
    cases sctx
    · simp [gs_context, throwCtx, finalCtx, dcOf, gs_display_dispose,
        hspf] at h
    cases mc
    · simp [gs_context, throwCtx, finalCtx, dcOf, gs_display_dispose,
        hspf] at h
    cases x1
    · simp [gs_context, throwCtx, finalCtx, dcOf, gs_display_dispose,
        hspf] at h
    cases x2
    · simp [gs_context, throwCtx, finalCtx, dcOf, gs_display_dispose,
        hspf] at h
    cases x3
    · simp [gs_context, throwCtx, finalCtx, dcOf, gs_display_dispose,
        hspf] at h
    cases x4
    · simp [gs_context, throwCtx, finalCtx, dcOf, gs_display_dispose,
        hspf] at h
    cases x5
    · simp [gs_context, throwCtx, finalCtx, dcOf, gs_display_dispose,
        hspf] at h
    cases x6
    · simp [gs_context, throwCtx, finalCtx, dcOf, gs_display_dispose,
        hspf] at h
    by_cases harb : arb = 0
    · simp [gs_context, throwCtx, finalCtx, dcOf, gs_display_dispose, hspf,
        harb] at h
    cases fin
    · simp [gs_context, throwCtx, finalCtx, dcOf, gs_display_dispose, hspf,
        harb] at h
    have hg : gs_context ⟨true, spf, true, true, true, true, true, true,
        true, true, arb, true, junk⟩ =
        ⟨202, 2, 102,
         [GsAct.registerClass, GsAct.createWindow 1, GsAct.getDC 1,
          GsAct.setSimplePixelFormat 101 spf,
          GsAct.createSimpleContext 101 201, GsAct.makeCurrent 101 201,
          GsAct.bindExtensions, GsAct.makeCurrent 0 0,
          GsAct.deleteContext 201, GsAct.releaseDC 1, GsAct.destroyWindow 1,
          GsAct.createWindow 2, GsAct.getDC 2,
          GsAct.setArbPixelFormat 102 arb, GsAct.createFinalContext 102 202,
          GsAct.makeCurrent 102 202, GsAct.showWindow 2,
          GsAct.setForegroundWindow 2]⟩ := by
      simp [gs_context, throwCtx, finalCtx, dcOf, gs_display_dispose, hspf,
        harb]
    rw [hg]
    simp only [occursBefore, dcOf, throwCtx, finalCtx]
    refine ⟨trivial, ?_, ?_, by simp, ?_, by decide⟩
    · exact ⟨[GsAct.registerClass, GsAct.createWindow 1, GsAct.getDC 1,
        GsAct.setSimplePixelFormat 101 spf,
        GsAct.createSimpleContext 101 201, GsAct.makeCurrent 101 201,
        GsAct.bindExtensions, GsAct.makeCurrent 0 0,
        GsAct.deleteContext 201, GsAct.releaseDC 1],
        [GsAct.createWindow 2, GsAct.getDC 2,
         GsAct.setArbPixelFormat 102 arb, GsAct.createFinalContext 102 202,
         GsAct.makeCurrent 102 202, GsAct.showWindow 2,
         GsAct.setForegroundWindow 2], rfl, by simp⟩
    · intro hmem
      exact ⟨[GsAct.registerClass, GsAct.createWindow 1, GsAct.getDC 1,
        GsAct.setSimplePixelFormat 101 spf,
        GsAct.createSimpleContext 101 201, GsAct.makeCurrent 101 201,
        GsAct.bindExtensions, GsAct.makeCurrent 0 0],
        [GsAct.releaseDC 1, GsAct.destroyWindow 1, GsAct.createWindow 2,
         GsAct.getDC 2, GsAct.setArbPixelFormat 102 arb,
         GsAct.createFinalContext 102 202, GsAct.makeCurrent 102 202,
         GsAct.showWindow 2, GsAct.setForegroundWindow 2], rfl, by simp⟩
    · intro c
      simp

/-- Witness for C1 at the all-successful host `okEnv`. -/
theorem gs_context_window_identity_witness :
    (gs_context okEnv).display = 2 ∧
    GsAct.createFinalContext (dcOf 2) finalCtx ∈ (gs_context okEnv).trace :=
  ⟨(gs_context_window_identity okEnv (by decide)).1,
   (gs_context_window_identity okEnv (by decide)).2.2.2.1⟩

/-- The message chain dispatches `WM_ACTIVATE` to its case body. -/
theorem gs_wnd_proc_wm_activate (w : Nat) (l : Int) :
    gs_wnd_proc WM_ACTIVATE w l = procActivate w := rfl

theorem gs_wnd_proc_wm_syscommand (w : Nat) (l : Int) :
    gs_wnd_proc WM_SYSCOMMAND w l = procSysCommand w := rfl

theorem gs_wnd_proc_wm_close (w : Nat) (l : Int) :
    gs_wnd_proc WM_CLOSE w l = procClose := rfl

theorem gs_wnd_proc_wm_size (w : Nat) (l : Int) :
    gs_wnd_proc WM_SIZE w l = procSize w := rfl

/-- Only the `WM_CLOSE` case of the window procedure writes the
`dev_win_alive` flag; every other message leaves it alone. -/
theorem gs_wnd_proc_aliveSet_none (m w : Nat) (l : Int) (hC : m ≠ WM_CLOSE) :
    (gs_wnd_proc m w l).aliveSet = Option.none := by
  by_cases hA : m = WM_ACTIVATE
  · subst hA
    rw [gs_wnd_proc_wm_activate]
    unfold procActivate
    split <;> rfl
  by_cases hB : m = WM_SYSCOMMAND
  · subst hB
    rw [gs_wnd_proc_wm_syscommand]
    unfold procSysCommand
    split <;> rfl
  by_cases hK : m = WM_KEYDOWN ∨ m = WM_KEYUP ∨
      m = WM_SYSKEYDOWN ∨ m = WM_SYSKEYUP
  · rcases hK with hk | hk | hk | hk <;> subst hk <;> rfl
  by_cases hL : m = WM_LBUTTONDOWN
  · subst hL; rfl
  by_cases hM : m = WM_LBUTTONUP
  · subst hM; rfl
  by_cases hN : m = WM_MBUTTONDOWN
  · subst hN; rfl
  by_cases hO : m = WM_MBUTTONUP
  · subst hO; rfl
  by_cases hP : m = WM_RBUTTONDOWN
  · subst hP; rfl
  by_cases hQ : m = WM_RBUTTONUP
  · subst hQ; rfl
  by_cases hR : m = WM_MOUSEWHEEL
  · subst hR; rfl
  by_cases hS : m = WM_SIZE
  · subst hS
    rw [gs_wnd_proc_wm_size]
    unfold procSize
    split <;> rfl
  by_cases hT : m = WM_EXITSIZEMOVE
  · subst hT; rfl
  · simp [gs_wnd_proc, procDefault, ProcOut.none0, hA, hB, hC, hK, hL, hM,
      hN, hO, hP, hQ, hR, hS, hT]

theorem gs_wnd_proc_aliveSet_close (w : Nat) (l : Int) :
    (gs_wnd_proc WM_CLOSE w l).aliveSet = some (-2) := rfl

/-- Once the alive flag is not 1, the loop condition fails immediately and
the cleanup after the loop runs. -/
theorem devRunLoop_exit (a : Int) (slots : List MsgSlot) (acc : List RAct)
    (h : a ≠ 1) : devRunLoop a slots acc
      = (a, acc ++ [RAct.deleteContext, RAct.disposeDisplay]) := by
  rw [devRunLoop.eq_def]
  simp [h]

/-- Loop step: nothing pending — `renderFrame` runs and the loop continues. -/
theorem devRunLoop_step_none (rest : List MsgSlot) (acc : List RAct) :
    devRunLoop 1 (Option.none :: rest) acc
      = devRunLoop 1 rest (acc ++ [RAct.renderFrame]) := by
  rw [devRunLoop.eq_def]
  simp

/-- Loop step: `WM_QUIT` is handled immediately and `dev_run` returns. -/
theorem devRunLoop_step_quit (w : Nat) (l : Int) (rest : List MsgSlot)
    (acc : List RAct) :
    devRunLoop 1 (some (WM_QUIT, w, l) :: rest) acc = (-2, acc) := by
  rw [devRunLoop.eq_def]
  simp

/-- Loop step: any other message is dispatched to the window procedure, then
`renderFrame` runs. -/
theorem devRunLoop_step_msg (m w : Nat) (l : Int) (rest : List MsgSlot)
    (acc : List RAct) (hq : m ≠ WM_QUIT) :
    devRunLoop 1 (some (m, w, l) :: rest) acc
      = devRunLoop ((gs_wnd_proc m w l).aliveSet.getD 1) rest
          (acc ++ [RAct.dispatch m, RAct.renderFrame]) := by
  rw [devRunLoop.eq_def]
  simp [hq]

/-- The loop only appends to the trace accumulated so far. -/
theorem devRunLoop_trace_mono (slots : List MsgSlot) (a : Int)
    (acc : List RAct) : ∃ r, (devRunLoop a slots acc).2 = acc ++ r := by
  induction slots generalizing a acc with
  | nil =>
    rw [devRunLoop.eq_def]
    by_cases h : a = 1
    · simp [h]
    · simp [h]
  | cons s rest ih =>
    by_cases h : a = 1
    · subst h
      rcases s with _ | ⟨m, w, l⟩
      · obtain ⟨r, hr⟩ := ih 1 (acc ++ [RAct.renderFrame])
        refine ⟨RAct.renderFrame :: r, ?_⟩
        rw [devRunLoop_step_none, hr]
        simp
      · by_cases hq : m = WM_QUIT
        · subst hq
          rw [devRunLoop_step_quit]
          exact ⟨[], by simp⟩
        · obtain ⟨r, hr⟩ := ih ((gs_wnd_proc m w l).aliveSet.getD 1)
            (acc ++ [RAct.dispatch m, RAct.renderFrame])
          refine ⟨RAct.dispatch m :: RAct.renderFrame :: r, ?_⟩
          rw [devRunLoop_step_msg m w l rest acc hq, hr]
          simp
    · rw [devRunLoop_exit a (s :: rest) acc h]
      exact ⟨_, rfl⟩

/-- If some pending message is a quit or close notification, the loop ends
with the alive flag at -2. -/
theorem devRunLoop_stopped (slots : List MsgSlot) (acc : List RAct)
    (h : slots.any stopsLoop = true) : (devRunLoop 1 slots acc).1 = -2 := by
  induction slots generalizing acc with
  | nil => simp at h
  | cons s rest ih =>
    rcases s with _ | ⟨m, w, l⟩
    · rw [devRunLoop_step_none]
      apply ih
      simpa [stopsLoop] using h
    · by_cases hq : m = WM_QUIT
      · subst hq
        rw [devRunLoop_step_quit]
      by_cases hc : m = WM_CLOSE
      · subst hc
        rw [devRunLoop_step_msg _ _ _ _ _ hq, gs_wnd_proc_aliveSet_close,
          devRunLoop_exit _ _ _ (by decide)]
        rfl
      · rw [devRunLoop_step_msg _ _ _ _ _ hq,
          gs_wnd_proc_aliveSet_none m w l hc]
        apply ih
        simpa [stopsLoop, hq, hc] using h

/-- C10: `dev_run` enters the event/render loop regardless of the bootstrap
outcome — the trace begins by setting the alive flag to 1 and calling
`prepRender`, the loop runs until a close/quit notification drives the alive
flag to -2, and both the final alive value and the whole trace are identical
for every bootstrap environment (in particular for one whose `gs_context`
returned 0). -/
theorem dev_run_ignores_null_context (e : WglEnv) (slots : List MsgSlot)
    (hstop : slots.any stopsLoop = true) :
    (dev_run e slots).trace.take 2 = [RAct.setAlive 1, RAct.prepRender] ∧
    (dev_run e slots).finalAlive = -2 ∧
    ∀ e2 : WglEnv, (dev_run e2 slots).finalAlive = (dev_run e slots).finalAlive ∧
      (dev_run e2 slots).trace = (dev_run e slots).trace := by
  refine ⟨?_, ?_, fun e2 => ⟨rfl, rfl⟩⟩
  · obtain ⟨r, hr⟩ :=
      devRunLoop_trace_mono slots 1 [RAct.setAlive 1, RAct.prepRender]
    show (devRunLoop 1 slots [RAct.setAlive 1, RAct.prepRender]).2.take 2 = _
    rw [hr]
    rfl
  · exact devRunLoop_stopped slots _ hstop

/-- Witness for C10: with a host whose final context creation fails
(`gs_context` returns 0) and a single pending `WM_CLOSE`, the loop still
starts and ends with the alive flag at -2. -/
theorem dev_run_ignores_null_context_witness :
    (gs_context { okEnv with finalContextOk := false }).context = 0 ∧
    (dev_run { okEnv with finalContextOk := false }
        [some (WM_CLOSE, 0, 0)]).finalAlive = -2 ∧
    (dev_run { okEnv with finalContextOk := false }
        [some (WM_CLOSE, 0, 0)]).trace.take 2
      = [RAct.setAlive 1, RAct.prepRender] :=
  ⟨rfl,
   (dev_run_ignores_null_context _ [some (WM_CLOSE, 0, 0)] (by decide)).2.1,
   (dev_run_ignores_null_context _ [some (WM_CLOSE, 0, 0)] (by decide)).1⟩

end Vu
